import Mathlib

/-!
Verification development for the standin-be document-import backend.

The definitions below are a shallow embedding of the Python sources:
`services/url_detector.py`, `services/jira_service.py`, `services/file_processor.py`,
`document/api.py`, `document/service.py`, `jira/api.py` and `minio_client.py`.
Strings are modelled as Lean `String` / `List Char`; Python byte strings as
`List Nat` with every element `< 256`; Python dictionaries whose keys are
accessed dynamically (or that contain duplicate keys in a literal) as
association lists `List (String × PyVal)` where the *last* binding of a key
wins, exactly as in a Python dict literal.

The regular expressions of the source are fixed concrete patterns; each is
translated into an equivalent deterministic scanner.  For the patterns at
hand greedy scanning is exact, because in every pattern a repeated class
(`[^/]+`, `[A-Z]+`, `\d+`) is followed by a character that the class cannot
match, so no backtracking is possible.  `re.search` semantics (match may
start at any position, leftmost match wins) is modelled by trying every
suffix of the subject from the left.  The model is restricted to ASCII
subjects, which covers every URL and identifier the service handles.
-/

namespace Standin

/-- Python values as stored in the dynamic dictionaries of the source
(`json_content`, the metadata dicts, board-info dicts). -/
inductive PyVal where
  | str (s : String)
  | int (n : Nat)
  | null
  | list (xs : List PyVal)
  | dict (entries : List (String × PyVal))
deriving Repr

/-- Lookup in a Python dict literal given as an association list: the last
binding of a key wins (later bindings overwrite earlier ones). -/
def pyGet (d : List (String × PyVal)) (k : String) : Option PyVal :=
  match d with
  | [] => none
  | (k', v) :: rest =>
    match pyGet rest k with
    | some w => some w
    | none => if k' = k then some v else none

/-- Membership of a key in a Python dict. -/
def pyHasKey (d : List (String × PyVal)) (k : String) : Bool :=
  (pyGet d k).isSome

/-! ## Character classes used by the patterns -/

/-- ASCII lower-casing, as applied to one character by `re.IGNORECASE`
matching of the all-ASCII patterns of the source. -/
def lowerChar (c : Char) : Char :=
  if 'A' ≤ c ∧ c ≤ 'Z' then Char.ofNat (c.toNat + 32) else c

/-- Lower-case a character list. -/
def lowerL (s : List Char) : List Char := s.map lowerChar

/-- The class `[^/]`. -/
def notSlash (c : Char) : Bool := c ≠ '/'

/-- The class `\d` (ASCII digits for the subjects at hand). -/
def isDigitC (c : Char) : Bool := '0' ≤ c ∧ c ≤ '9'

/-- The class `[A-Z]` used case-sensitively by the extraction patterns. -/
def isUpperC (c : Char) : Bool := 'A' ≤ c ∧ c ≤ 'Z'

/-- The class `[A-Z]` under `re.IGNORECASE`, on an already lower-cased
subject: it accepts exactly the lower-case letters. -/
def isLowerAlphaC (c : Char) : Bool := 'a' ≤ c ∧ c ≤ 'z'

/-! ## Deterministic scanners for the concrete patterns -/

/-- Match a literal character sequence at the head of the subject, returning
the rest of the subject. -/
def litM : List Char → List Char → Option (List Char)
  | [], s => some s
  | _ :: _, [] => none
  | p :: ps, c :: cs => if c = p then litM ps cs else none

/-- Match one-or-more characters of a class, greedily (`X+`), returning the
rest of the subject. -/
def many1M (f : Char → Bool) : List Char → Option (List Char)
  | [] => none
  | c :: cs => if f c then some (cs.dropWhile f) else none

/-- Match one-or-more characters of a class, greedily, returning the matched
run (the capture) and the rest of the subject. -/
def many1C (f : Char → Bool) : List Char → Option (List Char × List Char)
  | [] => none
  | c :: cs => if f c then some (c :: cs.takeWhile f, cs.dropWhile f) else none

/-- `https?://` — `http`, an optional `s`, then `://`.  Greedy treatment of
the optional `s` is exact because `s ≠ :`. -/
def matchScheme (s : List Char) : Option (List Char) :=
  (litM "http".data s).bind fun r =>
    match r with
    | 's' :: r2 => litM "://".data r2
    | _ => litM "://".data r

/-- `https?://[^/]+` followed by a given literal suffix of the pattern. -/
def matchHostThen (tail : List Char) (s : List Char) : Option (List Char) :=
  (matchScheme s).bind fun r => (many1M notSlash r).bind (litM tail)

/-- `re.search` of an anchored-at-position matcher: try the matcher at every
start position from the left; `true` iff some position matches. -/
def searchAny (m : List Char → Option (List Char)) : List Char → Bool
  | [] => (m []).isSome
  | c :: t => (m (c :: t)).isSome || searchAny m (t)

/-- `re.search` returning the capture of the leftmost position at which the
capturing matcher succeeds. -/
def searchCap (m : List Char → Option (List Char)) : List Char → Option (List Char)
  | [] => m []
  | c :: t =>
    match m (c :: t) with
    | some g => some g
    | none => searchCap m t

/-! ## URL patterns of `URLDetector` (matched under `re.IGNORECASE`, hence
stated here over the lower-cased subject). -/

/-- `https?://[^/]+/wiki/spaces/[^/]+/pages/\d+` -/
def confPat1 (s : List Char) : Option (List Char) :=
  (matchHostThen "/wiki/spaces/".data s).bind fun r =>
    (many1M notSlash r).bind fun r2 =>
      (litM "/pages/".data r2).bind (many1M isDigitC)

/-- `https?://[^/]+/wiki/[^/]+/[^/]+` -/
def confPat2 (s : List Char) : Option (List Char) :=
  (matchHostThen "/wiki/".data s).bind fun r =>
    (many1M notSlash r).bind fun r2 =>
      (litM "/".data r2).bind (many1M notSlash)

/-- `https?://[^/]+/display/[^/]+/[^/]+` -/
def confPat3 (s : List Char) : Option (List Char) :=
  (matchHostThen "/display/".data s).bind fun r =>
    (many1M notSlash r).bind fun r2 =>
      (litM "/".data r2).bind (many1M notSlash)

/-- `https?://[^/]+/pages/viewpage\.action\?pageId=\d+` (lower-cased). -/
def confPat4 (s : List Char) : Option (List Char) :=
  (matchHostThen "/pages/viewpage.action?pageid=".data s).bind (many1M isDigitC)

/-- `https?://[^/]+/browse/[A-Z]+-\d+` under `IGNORECASE`. -/
def jiraPat1 (s : List Char) : Option (List Char) :=
  (matchHostThen "/browse/".data s).bind fun r =>
    (many1M isLowerAlphaC r).bind fun r2 =>
      (litM "-".data r2).bind (many1M isDigitC)

/-- `https?://[^/]+/jira/browse/[A-Z]+-\d+` under `IGNORECASE`. -/
def jiraPat2 (s : List Char) : Option (List Char) :=
  (matchHostThen "/jira/browse/".data s).bind fun r =>
    (many1M isLowerAlphaC r).bind fun r2 =>
      (litM "-".data r2).bind (many1M isDigitC)

/-- `https?://[^/]+/projects/[^/]+/issues/[A-Z]+-\d+` under `IGNORECASE`. -/
def jiraPat3 (s : List Char) : Option (List Char) :=
  (matchHostThen "/projects/".data s).bind fun r =>
    (many1M notSlash r).bind fun r2 =>
      (litM "/issues/".data r2).bind fun r3 =>
        (many1M isLowerAlphaC r3).bind fun r4 =>
          (litM "-".data r4).bind (many1M isDigitC)

/-- `https?://[^/]+/secure/RapidBoard\.jspa\?rapidView=\d+` (lower-cased). -/
def jiraPat4 (s : List Char) : Option (List Char) :=
  (matchHostThen "/secure/rapidboard.jspa?rapidview=".data s).bind (many1M isDigitC)

/-- `https?://[^/]+/jira/software/projects/[^/]+/boards/\d+` -/
def jiraPat5 (s : List Char) : Option (List Char) :=
  (matchHostThen "/jira/software/projects/".data s).bind fun r =>
    (many1M notSlash r).bind fun r2 =>
      (litM "/boards/".data r2).bind (many1M isDigitC)

/-! ## `URLDetector` -/

/-- `SourceType` of `services/url_detector.py`. -/
inductive SourceType where
  | confluence
  | jira
  | unknown
deriving DecidableEq, Repr

/-- `URLDetector.detect_source_type`: Confluence patterns are tried first,
then the JIRA patterns; all with `re.IGNORECASE`.  An empty string (Python
`if not url`) is `unknown`. -/
def detectSourceType (url : String) : SourceType :=
  if url.data = [] then .unknown
  else
    let l := lowerL url.data
    if searchAny confPat1 l || searchAny confPat2 l ||
       searchAny confPat3 l || searchAny confPat4 l then .confluence
    else if searchAny jiraPat1 l || searchAny jiraPat2 l ||
            searchAny jiraPat3 l || searchAny jiraPat4 l ||
            searchAny jiraPat5 l then .jira
    else .unknown

/-- Capture of `pageId=(\d+)` (case-sensitive). -/
def capPageId (s : List Char) : Option (List Char) :=
  (litM "pageId=".data s).bind fun r => (many1C isDigitC r).map (·.1)

/-- Capture of `/pages/(\d+)/` (case-sensitive): a digit run must be
followed by a literal `/`; greediness is exact since a digit cannot be `/`. -/
def capPagesId (s : List Char) : Option (List Char) :=
  (litM "/pages/".data s).bind fun r =>
    (many1C isDigitC r).bind fun gr =>
      match gr.2 with
      | '/' :: _ => some gr.1
      | _ => none

/-- Capture of `/browse/([A-Z]+-\d+)` (case-sensitive). -/
def capBrowseKey (s : List Char) : Option (List Char) :=
  (litM "/browse/".data s).bind fun r =>
    (many1C isUpperC r).bind fun ar =>
      match ar.2 with
      | '-' :: r3 => (many1C isDigitC r3).map fun dr => ar.1 ++ '-' :: dr.1
      | _ => none

/-- Capture of `/issues/([A-Z]+-\d+)` (case-sensitive). -/
def capIssuesKey (s : List Char) : Option (List Char) :=
  (litM "/issues/".data s).bind fun r =>
    (many1C isUpperC r).bind fun ar =>
      match ar.2 with
      | '-' :: r3 => (many1C isDigitC r3).map fun dr => ar.1 ++ '-' :: dr.1
      | _ => none

/-- Captures of `/jira/software/projects/([^/]+)/boards/(\d+)`. -/
def capBoardPair (s : List Char) : Option (List Char × List Char) :=
  (litM "/jira/software/projects/".data s).bind fun r =>
    (many1C notSlash r).bind fun pr =>
      (litM "/boards/".data pr.2).bind fun r2 =>
        (many1C isDigitC r2).map fun br => (pr.1, br.1)

/-- Variant of `searchCap` for a two-capture matcher. -/
def searchCap2 (m : List Char → Option (List Char × List Char)) :
    List Char → Option (List Char × List Char)
  | [] => m []
  | c :: t =>
    match m (c :: t) with
    | some g => some g
    | none => searchCap2 m t

/-- Capture of `rapidView=(\d+)` (case-sensitive). -/
def capRapidView (s : List Char) : Option (List Char) :=
  (litM "rapidView=".data s).bind fun r => (many1C isDigitC r).map (·.1)

/-- `URLDetector.extract_confluence_page_id`. -/
def extractConfluencePageId (url : String) : Option String :=
  if detectSourceType url ≠ .confluence then none
  else
    match searchCap capPageId url.data with
    | some g => some (String.mk g)
    | none =>
      match searchCap capPagesId url.data with
      | some g => some (String.mk g)
      | none => none

/-- `URLDetector.extract_jira_issue_key`. -/
def extractJiraIssueKey (url : String) : Option String :=
  if detectSourceType url ≠ .jira then none
  else
    match searchCap capBrowseKey url.data with
    | some g => some (String.mk g)
    | none =>
      match searchCap capIssuesKey url.data with
      | some g => some (String.mk g)
      | none => none

/-- `URLDetector.extract_jira_board_info` — returns the board dict. -/
def extractJiraBoardInfo (url : String) : Option (List (String × String)) :=
  if detectSourceType url ≠ .jira then none
  else
    match searchCap2 capBoardPair url.data with
    | some (p, b) =>
      some [("project_key", String.mk p), ("board_id", String.mk b)]
    | none =>
      match searchCap capRapidView url.data with
      | some g => some [("rapid_view_id", String.mk g)]
      | none => none

/-- Identifier variants that `URLDetector.parse_url` can place in the
`identifier` slot: a plain string (page id / issue key) or a board dict. -/
inductive UIdent where
  | key (s : String)
  | info (d : List (String × String))
deriving DecidableEq, Repr

/-- `urlparse(url).netloc` for `scheme://host/...`-shaped subjects: the part
after the first `://` up to the next `/`, `?` or `#`; empty when there is no
`://`.  (For strings `urlparse` itself never raises, so the
`try/except` around it in `parse_url` is inert.) -/
def netloc (url : String) : String :=
  let rec after : List Char → Option (List Char)
    | [] => none
    | ':' :: '/' :: '/' :: r => some r
    | _ :: t => after t
  match after url.data with
  | none => ""
  | some r => String.mk (r.takeWhile fun c => c ≠ '/' ∧ c ≠ '?' ∧ c ≠ '#')

/-- Result dictionary of `URLDetector.parse_url`; `urlType` is `none` when
the `url_type` key is absent from the Python dict. -/
structure ParsedUrl where
  sourceType : SourceType
  url : String
  domain : Option String
  identifier : Option UIdent
  isValid : Bool
  urlType : Option String
deriving DecidableEq, Repr

/-- `URLDetector.parse_url`. -/
def parseUrl (url : String) : ParsedUrl :=
  let st := detectSourceType url
  if st = .unknown then
    { sourceType := st, url := url, domain := none, identifier := none,
      isValid := false, urlType := none }
  else
    let dom := some (netloc url)
    match st with
    | .confluence =>
      { sourceType := .confluence, url := url, domain := dom,
        identifier := (extractConfluencePageId url).map .key,
        isValid := true, urlType := none }
    | .jira =>
      match extractJiraBoardInfo url with
      | some bi =>
        { sourceType := .jira, url := url, domain := dom,
          identifier := some (.info bi), isValid := true,
          urlType := some "board" }
      | none =>
        { sourceType := .jira, url := url, domain := dom,
          identifier := (extractJiraIssueKey url).map .key,
          isValid := true, urlType := some "issue" }
    | .unknown =>
      { sourceType := .unknown, url := url, domain := dom,
        identifier := none, isValid := false, urlType := none }

/-- `URLDetector.validate_url`. -/
def validateUrl (url : String) : Bool :=
  detectSourceType url ≠ .unknown

/-! ## String transformations of `services/jira_service.py` -/

/-- Helper: `dropWhile` never lengthens a list (for termination proofs). -/
theorem len_dropWhile_le (p : Char → Bool) (l : List Char) :
    (l.dropWhile p).length ≤ l.length := by
  induction l with
  | nil => simp [List.dropWhile]
  | cons c cs ih =>
    by_cases h : p c
    · simp only [List.dropWhile, h]
      exact Nat.le_succ_of_le ih
    · simp [List.dropWhile, h]

/-- The class `\w` (word character); the model is restricted to ASCII. -/
def isWordC (c : Char) : Bool := c.isAlpha || c.isDigit || c = '_'

/-- The class `\s` (ASCII whitespace, the set Python uses on ASCII text). -/
def isSpaceC (c : Char) : Bool :=
  c = ' ' || c = '\t' || c = '\n' || c = '\r' || c = '\x0b' || c = '\x0c'

/-- Python `str.strip()` on ASCII text. -/
def stripWs (s : List Char) : List Char :=
  ((s.dropWhile isSpaceC).reverse.dropWhile isSpaceC).reverse

/-!
The four scanners below each consume at least one character per step, so
they are written structurally over a fuel argument initialised with the
length of the subject; the fuel never runs out (this keeps them reducible
by `rfl`/`decide`, which well-founded recursion is not).
-/

/-- Fuelled body of `re.sub(r'[-\s]+', '-', s)`: every maximal run of
hyphens/whitespace is replaced by a single hyphen. -/
def collapseHyphenWsF : Nat → List Char → List Char
  | 0, _ => []
  | _, [] => []
  | fuel + 1, c :: cs =>
    if isSpaceC c || c = '-' then
      '-' :: collapseHyphenWsF fuel (cs.dropWhile fun x => isSpaceC x || x = '-')
    else
      c :: collapseHyphenWsF fuel cs

/-- `re.sub(r'[-\s]+', '-', s)`. -/
def collapseHyphenWs (s : List Char) : List Char :=
  collapseHyphenWsF s.length s

/-- Fuelled body of `re.sub(r'\s+', ' ', s)`: every maximal whitespace run
becomes one space. -/
def collapseWsF : Nat → List Char → List Char
  | 0, _ => []
  | _, [] => []
  | fuel + 1, c :: cs =>
    if isSpaceC c then ' ' :: collapseWsF fuel (cs.dropWhile isSpaceC)
    else c :: collapseWsF fuel cs

/-- `re.sub(r'\s+', ' ', s)`. -/
def collapseWs (s : List Char) : List Char :=
  collapseWsF s.length s

/-- Fuelled body of `re.sub(r'<[^>]+>', '', s)`: remove non-overlapping
tag-shaped spans, leftmost first.  A span needs at least one non-`>`
character between the brackets, so `<>` is kept. -/
def removeTagsF : Nat → List Char → List Char
  | 0, _ => []
  | _, [] => []
  | fuel + 1, c :: cs =>
    if c = '<' then
      if cs.takeWhile (fun x => x ≠ '>') ≠ [] ∧
         cs.dropWhile (fun x => x ≠ '>') ≠ [] then
        removeTagsF fuel (cs.dropWhile (fun x => x ≠ '>')).tail
      else c :: removeTagsF fuel cs
    else c :: removeTagsF fuel cs

/-- `re.sub(r'<[^>]+>', '', s)`. -/
def removeTags (s : List Char) : List Char :=
  removeTagsF s.length s

/-- Fuelled body of Python `str.replace(pat, rep)` (all occurrences, left
to right) for a non-empty pattern. -/
def replaceAllF (pat rep : List Char) : Nat → List Char → List Char
  | 0, _ => []
  | _, [] => []
  | fuel + 1, c :: cs =>
    if pat ≠ [] ∧ (c :: cs).take pat.length = pat then
      rep ++ replaceAllF pat rep fuel ((c :: cs).drop pat.length)
    else c :: replaceAllF pat rep fuel cs

/-- Python `str.replace(pat, rep)` for a non-empty pattern. -/
def replaceAll (pat rep : List Char) (s : List Char) : List Char :=
  replaceAllF pat rep s.length s

/-- `JiraService.clean_html_content`. -/
def cleanHtmlContent (h : String) : String :=
  if h = "" then ""
  else
    let t1 := removeTags h.data
    let t2 := replaceAll "&lt;".data "<".data t1
    let t3 := replaceAll "&gt;".data ">".data t2
    let t4 := replaceAll "&amp;".data "&".data t3
    String.mk (stripWs (collapseWs t4))

/-- The `safe_summary` computation shared by `format_issue_content` and
`format_issue_for_storage`:
`re.sub(r'[^\w\s-]', '', summary).strip()` then `re.sub(r'[-\s]+', '-', ·)`. -/
def safeSummary (summary : String) : String :=
  let s1 := summary.data.filter fun c => isWordC c || isSpaceC c || c = '-'
  String.mk (collapseHyphenWs (stripWs s1))

/-! ## JIRA issue data and the two formatters -/

/-- The slice of a JIRA issue JSON payload read by the formatters.  A `none`
field stands for an absent key, for which the `.get` default of the source
applies.  (JSON `null` values inside a present key, on which the Python
`.get(...).get(...)` chains would raise, are outside this model.) -/
structure JiraIssue where
  key : Option String := none
  summary : Option String := none
  description : Option String := none
  issuetype : Option String := none
  status : Option String := none
  priority : Option String := none
  assignee : Option String := none
  reporter : Option String := none
  created : Option String := none
  updated : Option String := none
  projectName : Option String := none
  projectKey : Option String := none
  epicLink : Option String := none
  epicName : Option String := none
deriving DecidableEq, Repr

/-- The slice of a subtask JSON payload read by the formatters. -/
structure JiraSubtask where
  key : Option String := none
  summary : Option String := none
  status : Option String := none
deriving DecidableEq, Repr

/-- `st.get(k)` with no default: JSON string or `None`. -/
def subVal : Option String → PyVal
  | some s => .str s
  | none => .null

/-- Description after the defaulting and conditional HTML cleaning shared by
both formatters: `fields.get("description", "No description")`, then cleaned
when non-empty (Python truthiness). -/
def cleanedDescription (i : JiraIssue) : String :=
  let d := i.description.getD "No description"
  if d = "" then d else cleanHtmlContent d

/-- One line per subtask, `- KEY: summary (status)`, as rendered by
`format_issue_content`. -/
def subtaskLine (st : JiraSubtask) : String :=
  "- " ++ st.key.getD "Unknown" ++ ": " ++ st.summary.getD "No summary" ++
    " (" ++ st.status.getD "Unknown" ++ ")"

/-- Return value of `format_issue_content` (both modules': all keys of the
result dicts are distinct and statically accessed, so a structure is a
faithful model). -/
structure FormattedIssue where
  title : String
  content : String
  filename : String
  issueKey : String
  projectName : String
  jsonContent : List (String × PyVal)
deriving Repr

/-- `format_issue_content` of `services/jira_service.py` — the simplified
single-issue formatter.  `document/api.py` imports
`services.jira_service.JiraService`, so this is the formatter of the
`/import` URL path (and only of that path: `jira/api.py` imports the
distinct top-level `jira_service.py` module instead).  `baseUrl` is
`settings.JIRA_URL`. -/
def formatIssueContent (baseUrl : String) (issue : JiraIssue)
    (subtasks : List JiraSubtask) : FormattedIssue :=
  let issueKey := issue.key.getD "Unknown"
  let summary := issue.summary.getD "No summary"
  let description := cleanedDescription issue
  let issueType := issue.issuetype.getD "Unknown"
  let status := issue.status.getD "Unknown"
  let priority := issue.priority.getD "Unknown"
  let assignee := issue.assignee.getD "Unassigned"
  let projectName := issue.projectName.getD "Unknown Project"
  let contentLines :=
    [ "JIRA Issue: " ++ issueKey,
      "Summary: " ++ summary,
      "Type: " ++ issueType,
      "Status: " ++ status,
      "Priority: " ++ priority,
      "Assignee: " ++ assignee,
      "Project: " ++ projectName,
      "",
      "Description: " ++ description ] ++
    (if subtasks.isEmpty then []
     else "" :: "Subtasks:" :: subtasks.map subtaskLine)
  let contentStr := String.intercalate "\n" contentLines
  let filename := "jira-" ++ issueKey ++ "-" ++ safeSummary summary ++ ".txt"
  { title := issueKey ++ ": " ++ summary,
    content := contentStr,
    filename := filename,
    issueKey := issueKey,
    projectName := projectName,
    jsonContent :=
      [ ("page_id", .str issueKey),
        ("title", .str summary),
        ("content", .str contentStr),
        ("url", .str (baseUrl ++ "/browse/" ++ issueKey)),
        ("source", .str "jira") ] }

/-- The structured-metadata dict built by `format_issue_for_storage` —
identical text in both modules: the local variable `content` of
`services/jira_service.py` and the local variable `json_content` of the
top-level `jira_service.py`. -/
def storageMetadata (issue : JiraIssue) (subtasks : List JiraSubtask) :
    List (String × PyVal) :=
  [ ("issue_key", .str (issue.key.getD "Unknown")),
    ("summary", .str (issue.summary.getD "No summary")),
    ("description", .str (cleanedDescription issue)),
    ("issue_type", .str (issue.issuetype.getD "Unknown")),
    ("status", .str (issue.status.getD "Unknown")),
    ("priority", .str (issue.priority.getD "Unknown")),
    ("assignee", .str (issue.assignee.getD "Unassigned")),
    ("reporter", .str (issue.reporter.getD "Unknown")),
    ("project_name", .str (issue.projectName.getD "Unknown Project")),
    ("project_key", .str (issue.projectKey.getD "Unknown")),
    ("epic_name", .str (issue.epicName.getD "No epic")),
    ("epic_link", .str (issue.epicLink.getD "No epic")),
    ("created", .str (issue.created.getD "Unknown")),
    ("updated", .str (issue.updated.getD "Unknown")),
    ("subtasks",
      if subtasks.isEmpty then .list []
      else .list (subtasks.map fun st =>
        .dict [ ("key", subVal st.key),
                ("summary", subVal st.summary),
                ("status", subVal st.status) ])) ]

/-- The markdown-style body rendered by `format_issue_for_storage`
(identical text in both modules, including the `**Epic:**` line). -/
def storageContentLines (issue : JiraIssue) (subtasks : List JiraSubtask) :
    List String :=
  [ "# JIRA Issue: " ++ issue.key.getD "Unknown",
    "",
    "**Summary:** " ++ issue.summary.getD "No summary",
    "**Type:** " ++ issue.issuetype.getD "Unknown",
    "**Status:** " ++ issue.status.getD "Unknown",
    "**Priority:** " ++ issue.priority.getD "Unknown",
    "**Assignee:** " ++ issue.assignee.getD "Unassigned",
    "**Reporter:** " ++ issue.reporter.getD "Unknown",
    "**Project:** " ++ issue.projectName.getD "Unknown Project" ++
      " (" ++ issue.projectKey.getD "Unknown" ++ ")",
    "**Epic:** " ++ issue.epicName.getD "No epic",
    "**Created:** " ++ issue.created.getD "Unknown",
    "**Updated:** " ++ issue.updated.getD "Unknown",
    "",
    "## Description",
    cleanedDescription issue,
    "" ] ++
  (if subtasks.isEmpty then []
   else ("## Subtasks" :: "" ::
     subtasks.map (fun st =>
       "- **" ++ st.key.getD "Unknown" ++ ":** " ++ st.summary.getD "No summary"
         ++ " (" ++ st.status.getD "Unknown" ++ ")")) ++ [""])

/-- `format_issue_for_storage` of `services/jira_service.py`.  The result
*must* be modelled as an association list: this module's return dict
literal binds the key `"content"` twice (first to the rendered text, then
to the metadata dict), and in Python the later binding wins; it has no
`"json_content"` binding.  No endpoint calls this function —
`/jira/project/import` resolves `JiraService` to the top-level
`jira_service.py` module, whose `format_issue_for_storage` (modelled below
as `topFormatIssueForStorage`) does not have the duplicate binding.
`fetched` stands for the result of `fetch_issue_subtasks` (a remote call),
requested only when `includeSubtasks` is true. -/
def formatIssueForStorage (issue : JiraIssue) (fetched : List JiraSubtask)
    (includeSubtasks : Bool) : List (String × PyVal) :=
  let subtasks := if includeSubtasks then fetched else []
  let issueKey := issue.key.getD "Unknown"
  let summary := issue.summary.getD "No summary"
  let contentStr := String.intercalate "\n" (storageContentLines issue subtasks)
  let filename := "jira-" ++ issueKey ++ "-" ++ safeSummary summary ++ ".txt"
  [ ("title", .str (issueKey ++ ": " ++ summary)),
    ("content", .str contentStr),
    ("filename", .str filename),
    ("issue_key", .str issueKey),
    ("project_name", .str (issue.projectName.getD "Unknown Project")),
    ("project_key", .str (issue.projectKey.getD "Unknown")),
    ("issue_type", .str (issue.issuetype.getD "Unknown")),
    ("status", .str (issue.status.getD "Unknown")),
    ("content", .dict (storageMetadata issue subtasks)) ]

/-! ## The top-level `jira_service.py` module

The repository contains a *second* `JiraService`, in `src/jira_service.py`.
`jira/api.py` does `from jira_service import JiraService`, which resolves
to this top-level module (there are no path tricks; `main.py` runs from
`src/`), so `/jira/pull`, `/jira/search` and `/jira/project/import` use the
formatters below — not the ones of `services/jira_service.py` above.  Its
`extract_issue_key_from_url`, `clean_html_content` and
`process_project_issues` are textually identical to the `services/`
versions and are shared with them in this embedding. -/

/-- The markdown-style body rendered by the top-level module's
`format_issue_content`: like `storageContentLines` but with no `**Epic:**`
line. -/
def topContentLines (issue : JiraIssue) (subtasks : List JiraSubtask) :
    List String :=
  [ "# JIRA Issue: " ++ issue.key.getD "Unknown",
    "",
    "**Summary:** " ++ issue.summary.getD "No summary",
    "**Type:** " ++ issue.issuetype.getD "Unknown",
    "**Status:** " ++ issue.status.getD "Unknown",
    "**Priority:** " ++ issue.priority.getD "Unknown",
    "**Assignee:** " ++ issue.assignee.getD "Unassigned",
    "**Reporter:** " ++ issue.reporter.getD "Unknown",
    "**Project:** " ++ issue.projectName.getD "Unknown Project" ++
      " (" ++ issue.projectKey.getD "Unknown" ++ ")",
    "**Created:** " ++ issue.created.getD "Unknown",
    "**Updated:** " ++ issue.updated.getD "Unknown",
    "",
    "## Description",
    cleanedDescription issue,
    "" ] ++
  (if subtasks.isEmpty then []
   else ("## Subtasks" :: "" ::
     subtasks.map (fun st =>
       "- **" ++ st.key.getD "Unknown" ++ ":** " ++ st.summary.getD "No summary"
         ++ " (" ++ st.status.getD "Unknown" ++ ")")) ++ [""])

/-- The `json_content` dict of the top-level module's
`format_issue_content` (`jira_service.py` lines 141–161): the full
structured metadata minus the epic fields, with a subtasks array that is
`[]` when no subtasks were passed. -/
def topJsonContent (issue : JiraIssue) (subtasks : List JiraSubtask) :
    List (String × PyVal) :=
  [ ("issue_key", .str (issue.key.getD "Unknown")),
    ("summary", .str (issue.summary.getD "No summary")),
    ("description", .str (cleanedDescription issue)),
    ("issue_type", .str (issue.issuetype.getD "Unknown")),
    ("status", .str (issue.status.getD "Unknown")),
    ("priority", .str (issue.priority.getD "Unknown")),
    ("assignee", .str (issue.assignee.getD "Unassigned")),
    ("reporter", .str (issue.reporter.getD "Unknown")),
    ("project_name", .str (issue.projectName.getD "Unknown Project")),
    ("project_key", .str (issue.projectKey.getD "Unknown")),
    ("created", .str (issue.created.getD "Unknown")),
    ("updated", .str (issue.updated.getD "Unknown")),
    ("subtasks",
      if subtasks.isEmpty then .list []
      else .list (subtasks.map fun st =>
        .dict [ ("key", subVal st.key),
                ("summary", subVal st.summary),
                ("status", subVal st.status) ])) ]

/-- `format_issue_content` of the top-level `jira_service.py` — the
formatter of `/jira/pull` and `/jira/search`.  Its return dict binds each
key once, so a structure is a faithful model; unlike the `services/`
variant its `json_content` is the full metadata of `topJsonContent`. -/
def topFormatIssueContent (issue : JiraIssue)
    (subtasks : List JiraSubtask) : FormattedIssue :=
  let issueKey := issue.key.getD "Unknown"
  let summary := issue.summary.getD "No summary"
  let filename := "jira-" ++ issueKey ++ "-" ++ safeSummary summary ++ ".txt"
  { title := issueKey ++ ": " ++ summary,
    content := String.intercalate "\n" (topContentLines issue subtasks),
    filename := filename,
    issueKey := issueKey,
    projectName := issue.projectName.getD "Unknown Project",
    jsonContent := topJsonContent issue subtasks }

/-- `format_issue_for_storage` of the top-level `jira_service.py` — the
formatter `/jira/project/import` actually calls.  Unlike the `services/`
variant it binds `"content"` once (to the rendered text) and *does* return
a `"json_content"` entry (the `storageMetadata` dict).  Kept as an
association list so that the loop's dynamic `content_data[...]` accesses
are modelled uniformly. -/
def topFormatIssueForStorage (issue : JiraIssue) (fetched : List JiraSubtask)
    (includeSubtasks : Bool) : List (String × PyVal) :=
  let subtasks := if includeSubtasks then fetched else []
  let issueKey := issue.key.getD "Unknown"
  let summary := issue.summary.getD "No summary"
  let contentStr := String.intercalate "\n" (storageContentLines issue subtasks)
  let filename := "jira-" ++ issueKey ++ "-" ++ safeSummary summary ++ ".txt"
  [ ("title", .str (issueKey ++ ": " ++ summary)),
    ("content", .str contentStr),
    ("filename", .str filename),
    ("issue_key", .str issueKey),
    ("project_name", .str (issue.projectName.getD "Unknown Project")),
    ("project_key", .str (issue.projectKey.getD "Unknown")),
    ("issue_type", .str (issue.issuetype.getD "Unknown")),
    ("status", .str (issue.status.getD "Unknown")),
    ("json_content", .dict (storageMetadata issue subtasks)) ]

/-! ## `services/file_processor.py`: content extraction

Python `bytes` are modelled as `List Nat` with every element `< 256`;
Python `str` results are modelled as the list of their Unicode code points
(`List Nat`), so that decodings are stated exactly. -/

/-- A Unicode scalar value: what a Python `str` produced by a successful
decode may contain (and what `str.encode('utf-8')` accepts). -/
def ValidScalar (c : Nat) : Prop :=
  c < 0x110000 ∧ ¬(0xD800 ≤ c ∧ c ≤ 0xDFFF)

instance (c : Nat) : Decidable (ValidScalar c) := by
  unfold ValidScalar; infer_instance

/-- A UTF-8 continuation byte. -/
def IsCont (b : Nat) : Prop := 0x80 ≤ b ∧ b ≤ 0xBF

instance (b : Nat) : Decidable (IsCont b) := by
  unfold IsCont; infer_instance

/-- Fuelled body of strict UTF-8 decoding.  Each step consumes at least one
byte and one unit of fuel, so fuel equal to the byte count always suffices;
the structural recursion on the fuel keeps the definition reducible. -/
def utf8DecodeF : Nat → List Nat → Option (List Nat)
  | _, [] => some []
  | 0, _ :: _ => none
  | fuel + 1, b0 :: rest =>
    if b0 < 0x80 then (utf8DecodeF fuel rest).map (b0 :: ·)
    else if 0xC2 ≤ b0 ∧ b0 ≤ 0xDF then
      match rest with
      | b1 :: r =>
        if IsCont b1 then
          (utf8DecodeF fuel r).map (((b0 - 0xC0) * 64 + (b1 - 0x80)) :: ·)
        else none
      | [] => none
    else if 0xE0 ≤ b0 ∧ b0 ≤ 0xEF then
      match rest with
      | b1 :: b2 :: r =>
        if IsCont b1 ∧ IsCont b2 ∧
           0x800 ≤ (b0 - 0xE0) * 4096 + (b1 - 0x80) * 64 + (b2 - 0x80) ∧
           ¬(0xD800 ≤ (b0 - 0xE0) * 4096 + (b1 - 0x80) * 64 + (b2 - 0x80) ∧
             (b0 - 0xE0) * 4096 + (b1 - 0x80) * 64 + (b2 - 0x80) ≤ 0xDFFF) then
          (utf8DecodeF fuel r).map
            (((b0 - 0xE0) * 4096 + (b1 - 0x80) * 64 + (b2 - 0x80)) :: ·)
        else none
      | _ => none
    else if 0xF0 ≤ b0 ∧ b0 ≤ 0xF4 then
      match rest with
      | b1 :: b2 :: b3 :: r =>
        if IsCont b1 ∧ IsCont b2 ∧ IsCont b3 ∧
           0x10000 ≤ (b0 - 0xF0) * 262144 + (b1 - 0x80) * 4096 +
             (b2 - 0x80) * 64 + (b3 - 0x80) ∧
           (b0 - 0xF0) * 262144 + (b1 - 0x80) * 4096 +
             (b2 - 0x80) * 64 + (b3 - 0x80) ≤ 0x10FFFF then
          (utf8DecodeF fuel r).map
            (((b0 - 0xF0) * 262144 + (b1 - 0x80) * 4096 +
              (b2 - 0x80) * 64 + (b3 - 0x80)) :: ·)
        else none
      | _ => none
    else none

/-- Python `bytes.decode('utf-8')` (strict): rejects truncated sequences,
bad continuation bytes, overlong forms, surrogates and values above
`0x10FFFF`; `none` models `UnicodeDecodeError`. -/
def utf8Decode (bs : List Nat) : Option (List Nat) :=
  utf8DecodeF bs.length bs

/-- `str.encode('utf-8')` for one scalar value. -/
def utf8EncodeChar (c : Nat) : List Nat :=
  if c < 0x80 then [c]
  else if c < 0x800 then [0xC0 + c / 64, 0x80 + c % 64]
  else if c < 0x10000 then
    [0xE0 + c / 4096, 0x80 + c / 64 % 64, 0x80 + c % 64]
  else
    [0xF0 + c / 262144, 0x80 + c / 4096 % 64, 0x80 + c / 64 % 64, 0x80 + c % 64]

/-- `str.encode('utf-8')` for a whole string. -/
def utf8Encode : List Nat → List Nat
  | [] => []
  | c :: cs => utf8EncodeChar c ++ utf8Encode cs

/-- `bytes.decode('latin-1')` (= `iso-8859-1`): maps every byte `b` to code
point `b`; it is total on bytes, so it never raises. -/
def latin1Decode (bs : List Nat) : Option (List Nat) :=
  if bs.all (· < 256) then some bs else none

/-- One byte under `bytes.decode('cp1252')`: the bytes `0x81, 0x8D, 0x8F,
0x90, 0x9D` are undefined in cp1252 and raise; `0x80–0x9F` otherwise map to
the Windows-1252 special characters; every other byte maps to itself. -/
def cp1252Char (b : Nat) : Option Nat :=
  if b = 0x80 then some 0x20AC
  else if b = 0x82 then some 0x201A
  else if b = 0x83 then some 0x0192
  else if b = 0x84 then some 0x201E
  else if b = 0x85 then some 0x2026
  else if b = 0x86 then some 0x2020
  else if b = 0x87 then some 0x2021
  else if b = 0x88 then some 0x02C6
  else if b = 0x89 then some 0x2030
  else if b = 0x8A then some 0x0160
  else if b = 0x8B then some 0x2039
  else if b = 0x8C then some 0x0152
  else if b = 0x8E then some 0x017D
  else if b = 0x91 then some 0x2018
  else if b = 0x92 then some 0x2019
  else if b = 0x93 then some 0x201C
  else if b = 0x94 then some 0x201D
  else if b = 0x95 then some 0x2022
  else if b = 0x96 then some 0x2013
  else if b = 0x97 then some 0x2014
  else if b = 0x98 then some 0x02DC
  else if b = 0x99 then some 0x2122
  else if b = 0x9A then some 0x0161
  else if b = 0x9B then some 0x203A
  else if b = 0x9C then some 0x0153
  else if b = 0x9E then some 0x017E
  else if b = 0x9F then some 0x0178
  else if b = 0x81 ∨ b = 0x8D ∨ b = 0x8F ∨ b = 0x90 ∨ b = 0x9D then none
  else if b < 256 then some b
  else none

/-- `bytes.decode('cp1252')`. -/
def cp1252Decode (bs : List Nat) : Option (List Nat) :=
  bs.mapM cp1252Char

/-- One sextet as a base64 alphabet character (ASCII code). -/
def b64Char (n : Nat) : Nat :=
  if n < 26 then 65 + n
  else if n < 52 then 97 + (n - 26)
  else if n < 62 then 48 + (n - 52)
  else if n = 62 then 43
  else 47

/-- `base64.b64encode(bs).decode('utf-8')` as a list of ASCII codes. -/
def base64Encode : List Nat → List Nat
  | [] => []
  | [b1] => [b64Char (b1 / 4), b64Char (b1 % 4 * 16), 61, 61]
  | [b1, b2] =>
    [b64Char (b1 / 4), b64Char (b1 % 4 * 16 + b2 / 16),
     b64Char (b2 % 16 * 4), 61]
  | b1 :: b2 :: b3 :: rest =>
    b64Char (b1 / 4) :: b64Char (b1 % 4 * 16 + b2 / 16) ::
    b64Char (b2 % 16 * 4 + b3 / 64) :: b64Char (b3 % 64) ::
    base64Encode rest

/-- Value of a base64 alphabet character. -/
def b64Val (c : Nat) : Option Nat :=
  if 65 ≤ c ∧ c ≤ 90 then some (c - 65)
  else if 97 ≤ c ∧ c ≤ 122 then some (c - 97 + 26)
  else if 48 ≤ c ∧ c ≤ 57 then some (c - 48 + 52)
  else if c = 43 then some 62
  else if c = 47 then some 63
  else none

/-- `base64.b64decode` on the ASCII codes of a padded base64 string. -/
def base64Decode : List Nat → Option (List Nat)
  | [] => some []
  | [c1, c2, 61, 61] =>
    (b64Val c1).bind fun v1 => (b64Val c2).bind fun v2 =>
      if v2 % 16 = 0 then some [v1 * 4 + v2 / 16] else none
  | [c1, c2, c3, 61] =>
    (b64Val c1).bind fun v1 => (b64Val c2).bind fun v2 =>
      (b64Val c3).bind fun v3 =>
        if v3 % 4 = 0 then
          some [v1 * 4 + v2 / 16, v2 % 16 * 16 + v3 / 4]
        else none
  | c1 :: c2 :: c3 :: c4 :: rest =>
    (b64Val c1).bind fun v1 => (b64Val c2).bind fun v2 =>
      (b64Val c3).bind fun v3 => (b64Val c4).bind fun v4 =>
        (base64Decode rest).map
          ((v1 * 4 + v2 / 16) :: (v2 % 16 * 16 + v3 / 4) ::
           (v3 % 4 * 64 + v4) :: ·)
  | _ => none

/-- Code points of a Lean string literal (for the fixed marker texts). -/
def strCodes (s : String) : List Nat := s.data.map Char.toNat

/-- `FileProcessor.SUPPORTED_TEXT_TYPES`. -/
def supportedTextTypes : List String :=
  [ "text/plain", "text/markdown", "text/csv", "application/json",
    "application/xml", "text/xml", "application/yaml", "text/yaml",
    "application/x-yaml", "text/html", "text/css", "text/javascript",
    "application/javascript" ]

/-- `FileProcessor.SUPPORTED_DOCUMENT_TYPES`. -/
def supportedDocumentTypes : List String :=
  [ "application/pdf", "application/msword",
    "application/vnd.openxmlformats-officedocument.wordprocessingml.document",
    "application/vnd.ms-excel",
    "application/vnd.openxmlformats-officedocument.spreadsheetml.sheet",
    "application/vnd.ms-powerpoint",
    "application/vnd.openxmlformats-officedocument.presentationml.presentation" ]

/-- `FileProcessor.is_text_file`. -/
def isTextFile (contentType : String) : Bool :=
  supportedTextTypes.contains contentType

/-- `FileProcessor.is_supported_file_type`. -/
def isSupportedFileType (contentType : String) : Bool :=
  supportedTextTypes.contains contentType ||
    supportedDocumentTypes.contains contentType

/-- The text branch of `FileProcessor.read_file_content`: UTF-8 first, then
`latin-1`, `cp1252`, `iso-8859-1` (= latin-1 again), and finally the base64
marker string. -/
def readTextContent (bs : List Nat) : List Nat :=
  match utf8Decode bs with
  | some s => s
  | none =>
    match latin1Decode bs with
    | some s => s
    | none =>
      match cp1252Decode bs with
      | some s => s
      | none =>
        match latin1Decode bs with
        | some s => s
        | none =>
          strCodes "Binary file content (base64): " ++ base64Encode bs

/-- `FileProcessor.read_file_content` (the content part of its returned
pair).  `docExtract` stands for `extract_document_content`, whose output
depends on the optional extraction libraries. -/
def readFileContent (bs : List Nat) (contentType : String)
    (docExtract : List Nat → String → List Nat) : List Nat :=
  if isTextFile contentType then readTextContent bs
  else if supportedDocumentTypes.contains contentType then
    docExtract bs contentType
  else
    strCodes "Unsupported file type: " ++ strCodes contentType ++
      strCodes "\nBinary content (base64): " ++ base64Encode bs

/-! ## Persistence and the import endpoints

The DB and the object store are external collaborators; the model records
the persistent writes an endpoint performs as a trace of `StoreEvent`s, in
program order.  Exceptions are modelled by `PyErr`; note that FastAPI's
`HTTPException` *is* an `Exception` subclass, so a Python `except Exception`
block catches it — this detail is load-bearing for `/import`. -/

/-- A persistent side effect: a committed DB document row, or an object
written to the MinIO bucket under a key. -/
inductive StoreEvent where
  | dbInsert (id : Nat) (filename : String)
  | blobWrite (key : String)
deriving DecidableEq, Repr

/-- Exceptions of the endpoint code: an `HTTPException(status, detail)`, a
`ValueError(msg)`, or any other exception with its message. -/
inductive PyErr where
  | http (status : Nat) (detail : String)
  | valueErr (msg : String)
  | exn (msg : String)
deriving DecidableEq, Repr

/-- Python `str(e)`: starlette's `HTTPException.__str__` renders
`"{status_code}: {detail}"`; other exceptions render their message. -/
def pyErrStr : PyErr → String
  | .http s d => toString s ++ ": " ++ d
  | .valueErr m => m
  | .exn m => m

/-- `minio_client.upload_file_content(content, object_name)`: encodes the
content as UTF-8 and puts it.  Only `S3Error` is caught (yielding `False`);
calling `.encode` on a non-string (such as a dict) raises an
`AttributeError`, which propagates.  `s3Ok` is the oracle for the remote
put. -/
def uploadFileContent (content : PyVal) (s3Ok : Bool) : Except PyErr Bool :=
  match content with
  | .str _ => if s3Ok then .ok true else .ok false
  | _ => .error (.exn "AttributeError: encode")

/-- `DocumentService.create_document`: `db.add / commit / refresh` first
(assigning `nextId` to the row), then
`upload_file_content(content, str(document.id) + "_" + document.filename)`.
The upload's Boolean result is ignored by the source. -/
def createDocument (nextId : Nat) (filename : String) : Nat × List StoreEvent :=
  (nextId, [.dbInsert nextId filename,
            .blobWrite (toString nextId ++ "_" ++ filename)])

/-- `urlparse(url).path` for the URL shapes at hand: the part after the
host (when a `://` is present) up to the first `?` or `#`. -/
def urlPath (url : String) : List Char :=
  let rec afterScheme : List Char → Option (List Char)
    | [] => none
    | ':' :: '/' :: '/' :: r => some r
    | _ :: t => afterScheme t
  match afterScheme url.data with
  | none => url.data.takeWhile fun c => c ≠ '?' ∧ c ≠ '#'
  | some r =>
    (r.dropWhile fun c => c ≠ '/').takeWhile fun c => c ≠ '?' ∧ c ≠ '#'

/-- `JiraService.extract_issue_key_from_url` (textually identical in
`services/jira_service.py` and the top-level `jira_service.py`): searches
`/browse/([A-Z]+-\d+)` then `/issues/([A-Z]+-\d+)` in the URL *path*
(case-sensitive). -/
def extractIssueKeyFromUrl (url : String) : Option String :=
  let p := urlPath url
  match searchCap capBrowseKey p with
  | some g => some (String.mk g)
  | none =>
    match searchCap capIssuesKey p with
    | some g => some (String.mk g)
    | none => none

/-- Confluence page content as produced by
`ConfluenceService.fetch_page_by_url` + `extract_page_content` (an external
adapter; only the fields read by `_handle_url_import` are modelled). -/
structure ConfContent where
  jsonContent : PyVal
  content : String
  filename : String
  title : String
  pageId : String
  spaceName : String

/-- Board bundle content as produced by `JiraService.fetch_board_issues`
(remote fan-out; only the fields read by `_handle_url_import`). -/
structure BoardContent where
  jsonContent : PyVal
  content : String
  filename : String
  title : String
  projectKey : String
  boardId : Option String
  totalIssues : Nat

/-- The external collaborators of `/import`, plus the next DB row id. -/
structure UrlImportServices where
  confluenceAvailable : Bool
  jiraAvailable : Bool
  fetchConfluencePage : String → Except String ConfContent
  fetchIssueByKey : String → Except String JiraIssue
  fetchSubtasks : String → List JiraSubtask
  fetchBoardIssues : String → Option String → Except String BoardContent
  jiraBaseUrl : String
  bucketName : String
  nextId : Nat

/-- Response record of the document import endpoints
(`DocumentImportResponse`). -/
structure ImportResponse where
  documentId : Nat
  sourceType : String
  title : String
  filename : String
  bucket : String
  externalLink : Option String
  message : String
  metadata : List (String × PyVal)
deriving Repr

/-- `_handle_url_import` of `document/api.py`, paired with the trace of
persistent writes it performs.  All its own rejections are
`HTTPException`s; adapter failures propagate as plain exceptions. -/
def handleUrlImport (svc : UrlImportServices) (url : String)
    (includeSubtasks : Bool) : Except PyErr ImportResponse × List StoreEvent :=
  let info := parseUrl url
  if info.isValid = false then
    (.error (.http 400 "Invalid or unsupported URL"), [])
  else
    match info.sourceType with
    | .confluence =>
      if svc.confluenceAvailable = false then
        (.error (.http 500 "Confluence service not available"), [])
      else
        match svc.fetchConfluencePage url with
        | .error m => (.error (.exn m), [])
        | .ok cd =>
          let r := createDocument svc.nextId cd.filename
          (.ok { documentId := r.1, sourceType := "confluence",
                 title := cd.title, filename := cd.filename,
                 bucket := svc.bucketName, externalLink := some url,
                 message := "Successfully imported Confluence page: " ++ cd.pageId,
                 metadata := [("page_id", .str cd.pageId),
                              ("space_name", .str cd.spaceName)] }, r.2)
    | .jira =>
      if svc.jiraAvailable = false then
        (.error (.http 500 "JIRA service not available"), [])
      else if info.urlType = some "board" then
        match info.identifier with
        | some (.info bi) =>
          match bi.lookup "project_key" with
          | none =>
            (.error (.http 400 "Could not extract project key from board URL"), [])
          | some pk =>
            match svc.fetchBoardIssues pk (bi.lookup "board_id") with
            | .error m => (.error (.exn m), [])
            | .ok bc =>
              let r := createDocument svc.nextId bc.filename
              (.ok { documentId := r.1, sourceType := "jira",
                     title := bc.title, filename := bc.filename,
                     bucket := svc.bucketName, externalLink := some url,
                     message := "Successfully imported JIRA board: " ++
                       bc.projectKey ++ " (" ++ toString bc.totalIssues ++ " issues)",
                     metadata := [("project_key", .str bc.projectKey),
                                  ("board_id",
                                    match bc.boardId with
                                    | some b => .str b
                                    | none => .null),
                                  ("total_issues", .int bc.totalIssues)] }, r.2)
        | _ =>
          -- unreachable: `parse_url` sets `url_type = "board"` only together
          -- with a board-info dict; Python would raise here (`.get` on a
          -- non-dict).
          (.error (.exn "AttributeError: get"), [])
      else
        match extractIssueKeyFromUrl url with
        | none =>
          -- `fetch_issue_by_url` raises `ValueError` before any remote call
          (.error (.valueErr ("Could not extract issue key from URL: " ++ url)), [])
        | some key =>
          match svc.fetchIssueByKey key with
          | .error m => (.error (.exn m), [])
          | .ok issue =>
            -- the source re-runs `extract_issue_key_from_url`, which
            -- deterministically yields `key` again
            let subtasks := if includeSubtasks then svc.fetchSubtasks key else []
            let cd := formatIssueContent svc.jiraBaseUrl issue subtasks
            let r := createDocument svc.nextId cd.filename
            (.ok { documentId := r.1, sourceType := "jira",
                   title := cd.title, filename := cd.filename,
                   bucket := svc.bucketName, externalLink := some url,
                   message := "Successfully imported JIRA issue: " ++ cd.issueKey,
                   metadata := [("issue_key", .str cd.issueKey),
                                ("project_name", .str cd.projectName)] }, r.2)
    | .unknown =>
      (.error (.http 400 "Unsupported URL type"), [])

/-- `import_document` (`POST /import`).  The outer `try` block re-raises
*every* exception — `except Exception` also catches the handler's own
`HTTPException(400, ...)` — as `HTTPException(500, "Failed to import
document: " + str(e))`.  `fileResult`/`contentResult` stand for the
outcomes of `_handle_file_import`/`_handle_content_import`; `bucketOk`
models `create_bucket_if_not_exists`. -/
def importDocument (svc : UrlImportServices) (source : String)
    (url : Option String) (includeSubtasks : Bool)
    (filePresent contentPresent : Bool)
    (fileResult contentResult : Except PyErr ImportResponse × List StoreEvent)
    (bucketOk : Bool) : Except PyErr ImportResponse × List StoreEvent :=
  let inner : Except PyErr ImportResponse × List StoreEvent :=
    if bucketOk = false then (.error (.exn "S3Error"), [])
    else if source = "url" ∧ (url.getD "") ≠ "" then
      handleUrlImport svc (url.getD "") includeSubtasks
    else if source = "file" ∧ filePresent then fileResult
    else if source = "content" ∧ contentPresent then contentResult
    else
      (.error (.http 400 "Invalid source type or missing required parameters"), [])
  match inner with
  | (.ok r, tr) => (.ok r, tr)
  | (.error e, tr) =>
    (.error (.http 500 ("Failed to import document: " ++ pyErrStr e)), tr)

/-- Response record of `POST /jira/pull` (`JiraIssueResponse`). -/
structure PullResponse where
  documentId : Nat
  title : String
  filename : String
  issueKey : String
  projectName : String
  message : String
deriving Repr

/-- `pull_jira_issue` (`POST /jira/pull`, `jira/api.py`): formats through
the *top-level* module's `format_issue_content` and uploads the blob under
the bare `content_data['filename']` key *before* inserting the DB row.
`fetchIssue`/`fetchSubs` are the remote oracles; `bucketOk`, `s3Ok` and
`dbOk` the storage oracles; `nextId` the id the DB would assign;
`_baseUrl` is `settings.JIRA_URL`, used by the source only for the row's
`external_link` (outside the modelled events).  A `ValueError` is mapped to
400, everything else (including the endpoint's own `HTTPException(500)` on
a failed upload) to a wrapped 500. -/
def pullJiraIssue (_baseUrl : String)
    (fetchIssue : String → Except String JiraIssue)
    (fetchSubs : String → List JiraSubtask)
    (bucketOk s3Ok dbOk : Bool) (nextId : Nat)
    (url : String) (includeSubtasks : Bool) (_bucket : String) :
    Except PyErr PullResponse × List StoreEvent :=
  match extractIssueKeyFromUrl url with
  | none =>
    (.error (.http 400 ("Could not extract issue key from URL: " ++ url)), [])
  | some key =>
    match fetchIssue key with
    | .error m =>
      (.error (.http 500 ("Failed to pull JIRA issue: " ++ m)), [])
    | .ok issue =>
      let subtasks := if includeSubtasks then fetchSubs key else []
      let cd := topFormatIssueContent issue subtasks
      if bucketOk = false then
        (.error (.http 500 "Failed to pull JIRA issue: S3Error"), [])
      else if s3Ok = false then
        -- upload returned False → `HTTPException(500, ...)` raised inside
        -- the `try`, re-wrapped by `except Exception`
        (.error (.http 500
          ("Failed to pull JIRA issue: " ++
           pyErrStr (.http 500 "Failed to upload content to MinIO"))), [])
      else if dbOk = false then
        -- blob already written, row not committed
        (.error (.http 500 "Failed to pull JIRA issue: OperationalError"),
         [.blobWrite cd.filename])
      else
        (.ok { documentId := nextId, title := cd.title,
               filename := cd.filename, issueKey := cd.issueKey,
               projectName := cd.projectName,
               message := "Successfully pulled JIRA issue '" ++ cd.issueKey ++
                 "' and saved as document " ++ toString nextId },
         [.blobWrite cd.filename, .dbInsert nextId cd.filename])

/-! ## `import_jira_project` (`POST /jira/project/import`) -/

/-- One issue of a project import together with the oracles for the
external effects its processing performs: `formatRaises` models an
exception escaping `format_issue_for_storage` (its subtask fetch), `s3Ok`
the MinIO put, `dbOk` the DB commit, `docId` the row id on success. -/
structure ProjectItem where
  issue : JiraIssue
  fetchedSubtasks : List JiraSubtask
  formatRaises : Bool
  s3Ok : Bool
  dbOk : Bool
  docId : Nat

/-- The body of the per-issue loop of `import_jira_project`: formats the
issue through the *top-level* module's `format_issue_for_storage`, uploads
`content_data['content']`, then builds the DB row from
`content_data['json_content']` (a `KeyError` when absent) and commits.
`some id` is a processed document, `none` a failure counted in
`failed_count` (the body's `try/except` catches every exception). -/
def processProjectItem (includeSubtasks : Bool) (it : ProjectItem) : Option Nat :=
  if it.formatRaises then none
  else
    let cd := topFormatIssueForStorage it.issue it.fetchedSubtasks includeSubtasks
    match pyGet cd "content" with
    | none => none
    | some c =>
      match uploadFileContent c it.s3Ok with
      | .error _ => none
      | .ok false => none
      | .ok true =>
        match pyGet cd "json_content" with
        | none => none
        | some _ => if it.dbOk then some it.docId else none

/-- The loop of `import_jira_project` over all fetched issues, in order:
collected `document_ids` and `failed_count`.  Every iteration contributes
exactly one of the two; the `except ... continue` guarantees the loop
reaches every item. -/
def runProjectLoop (includeSubtasks : Bool) :
    List ProjectItem → List Nat × Nat
  | [] => ([], 0)
  | it :: rest =>
    let r := runProjectLoop includeSubtasks rest
    match processProjectItem includeSubtasks it with
    | some id => (id :: r.1, r.2)
    | none => (r.1, r.2 + 1)

/-- ASCII lower-casing of a string (Python `.lower()` on the ASCII
issue-type names). -/
def lowerStr (s : String) : String := String.mk (lowerL s.data)

/-- The issue-type bucket of `JiraService.process_project_issues`. -/
def bucketOf (issueType : Option String) : String :=
  let t := lowerStr (issueType.getD "")
  if t = "epic" then "epics"
  else if t = "story" then "stories"
  else if t = "task" then "tasks"
  else if t = "sub-task" then "subtasks"
  else if t = "bug" then "bugs"
  else "other"

/-- `issues_by_type` counts of `process_project_issues`. -/
def issuesByTypeCounts (issues : List JiraIssue) : List (String × Nat) :=
  ["epics", "stories", "tasks", "subtasks", "bugs", "other"].map fun b =>
    (b, (issues.filter fun i => bucketOf i.issuetype = b).length)

/-- Response record of `POST /jira/project/import`
(`JiraProjectImportResponse`). -/
structure ProjectImportResponse where
  projectKey : String
  projectName : String
  totalIssues : Nat
  issuesByType : List (String × Nat)
  documentIds : List Nat
  processedCount : Nat
  failedCount : Nat
  message : String
deriving Repr

/-- `import_jira_project` after a successful `process_project_issues`
(whose fetched issues, with their per-item effect oracles, are `items`):
the early return for an empty project, otherwise the per-issue loop and the
summary response. -/
def importJiraProject (projectKey projectName : String)
    (items : List ProjectItem) (includeSubtasks : Bool) :
    ProjectImportResponse :=
  if items.isEmpty then
    { projectKey := projectKey, projectName := projectName,
      totalIssues := 0, issuesByType := [],
      documentIds := [], processedCount := 0, failedCount := 0,
      message := "No issues found in project '" ++ projectKey ++ "'" }
  else
    let r := runProjectLoop includeSubtasks items
    { projectKey := projectKey, projectName := projectName,
      totalIssues := items.length,
      issuesByType := issuesByTypeCounts (items.map (·.issue)),
      documentIds := r.1, processedCount := r.1.length, failedCount := r.2,
      message := "Successfully processed " ++ toString r.1.length ++
        " out of " ++ toString items.length ++ " issues from project '" ++
        projectName ++ "'" }

/-! # Theorems

Sample data shared by the concrete evaluations. -/

/-- The issue of the spec's scenario: key `KAN-5`, summary
`Fix login bug`. -/
def kan5Issue : JiraIssue :=
  { key := some "KAN-5", summary := some "Fix login bug",
    description := some "Login fails", issuetype := some "Bug",
    status := some "In Progress", priority := some "High",
    assignee := some "Ann", reporter := some "Bob",
    created := some "2024-01-01", updated := some "2024-01-02",
    projectName := some "Kanban", projectKey := some "KAN" }

/-- Concrete collaborators for evaluating the `/import` endpoint on inputs
that are rejected before any remote call is made. -/
def probeServices : UrlImportServices :=
  { confluenceAvailable := true, jiraAvailable := true,
    fetchConfluencePage := fun _ => .error "unreachable",
    fetchIssueByKey := fun _ => .error "unreachable",
    fetchSubtasks := fun _ => [],
    fetchBoardIssues := fun _ _ => .error "unreachable",
    jiraBaseUrl := "https://co.atlassian.net",
    bucketName := "documents", nextId := 1 }

/-- A project-import item for the scenario issue with every per-item oracle
succeeding, assigned the DB row 42. -/
def okItem : ProjectItem :=
  { issue := kan5Issue, fetchedSubtasks := [], formatRaises := false,
    s3Ok := true, dbOk := true, docId := 42 }

/-! ## Helper lemmas about the batch loop and the storage formatter -/

/-- The duplicated dict key: `format_issue_for_storage` has no
`json_content` binding, and its last `content` binding is the metadata
dict. -/
theorem fis_pyGet_content (issue : JiraIssue) (fetched : List JiraSubtask)
    (incl : Bool) :
    pyGet (formatIssueForStorage issue fetched incl) "content" =
      some (.dict (storageMetadata issue (if incl then fetched else []))) := rfl

/-- `format_issue_for_storage` of `services/jira_service.py` binds no
`json_content` key. -/
theorem fis_pyGet_json_content (issue : JiraIssue)
    (fetched : List JiraSubtask) (incl : Bool) :
    pyGet (formatIssueForStorage issue fetched incl) "json_content" = none := rfl

/-- The top-level module's `format_issue_for_storage` binds `content` once,
to the rendered text. -/
theorem tfs_pyGet_content (issue : JiraIssue) (fetched : List JiraSubtask)
    (incl : Bool) :
    pyGet (topFormatIssueForStorage issue fetched incl) "content" =
      some (.str (String.intercalate "\n"
        (storageContentLines issue (if incl then fetched else [])))) := rfl

/-- The top-level module's `format_issue_for_storage` returns a
`json_content` entry: the structured-metadata dict. -/
theorem tfs_pyGet_json_content (issue : JiraIssue)
    (fetched : List JiraSubtask) (incl : Bool) :
    pyGet (topFormatIssueForStorage issue fetched incl) "json_content" =
      some (.dict (storageMetadata issue (if incl then fetched else []))) := rfl

/-- The loop of `import_jira_project` visits every item and classifies each
one as exactly one of processed / failed. -/
theorem runProjectLoop_spec (incl : Bool) (items : List ProjectItem) :
    (runProjectLoop incl items).1 =
      items.filterMap (processProjectItem incl) ∧
    (runProjectLoop incl items).1.length + (runProjectLoop incl items).2 =
      items.length := by
  induction items with
  | nil => simp [runProjectLoop]
  | cons it rest ih =>
    simp only [runProjectLoop, List.filterMap_cons]
    cases h : processProjectItem incl it with
    | none =>
      simp only [h]
      refine ⟨ih.1, ?_⟩
      have := ih.2
      simp only [List.length_cons]
      omega
    | some id =>
      simp only [h, List.length_cons]
      exact ⟨by rw [ih.1], by omega⟩

/-- C2 helper: the response of `import_jira_project` in terms of the loop. -/
theorem importJiraProject_counts (pk pn : String) (items : List ProjectItem)
    (incl : Bool) :
    (importJiraProject pk pn items incl).totalIssues = items.length ∧
    (importJiraProject pk pn items incl).processedCount =
      (importJiraProject pk pn items incl).documentIds.length ∧
    (importJiraProject pk pn items incl).documentIds =
      items.filterMap (processProjectItem incl) ∧
    (importJiraProject pk pn items incl).documentIds.length +
      (importJiraProject pk pn items incl).failedCount = items.length := by
  by_cases he : items.isEmpty
  · have : items = [] := List.isEmpty_iff.mp he
    subst this
    simp [importJiraProject]
  · have h := runProjectLoop_spec incl items
    simp only [importJiraProject, he, if_false, Bool.false_eq_true]
    exact ⟨trivial, trivial, h.1, h.2⟩

/-! ## The claims -/

/-- C2: for every batch import over N fetched issues of which K fail during
per-item processing, the summary satisfies `totalFound = N`,
`succeeded.length = N - K` and `failedCount = K` (so
`succeeded.length + failedCount = totalFound`); each item's outcome depends
on that item alone (`documentIds` is the item-wise `filterMap`, so one
item's failure never aborts the rest), and the loop is a total function
(the batch call returns a summary, it does not raise). -/
theorem jira_project_batch_invariant (pk pn : String)
    (items : List ProjectItem) (incl : Bool) :
    (importJiraProject pk pn items incl).totalIssues = items.length ∧
    (importJiraProject pk pn items incl).documentIds =
      items.filterMap (processProjectItem incl) ∧
    (importJiraProject pk pn items incl).processedCount =
      (importJiraProject pk pn items incl).documentIds.length ∧
    (importJiraProject pk pn items incl).documentIds.length +
      (importJiraProject pk pn items incl).failedCount =
      (importJiraProject pk pn items incl).totalIssues := by
  have h := importJiraProject_counts pk pn items incl
  exact ⟨h.1, h.2.2.1, h.2.1, by rw [h.1]; exact h.2.2.2⟩

/-- C9 counterexample: `/jira/project/import` resolves `JiraService` to the
top-level `jira_service.py`, whose `format_issue_for_storage` *does* return
a `json_content` entry; on a one-issue project whose upload and DB commit
succeed the loop therefore processes the issue — `processed_count = 1`, not
0 — refuting "the mapping contains no json_content key ... consequently
every iteration fails and processed_count is 0 for every non-empty
project". -/
theorem project_import_item_can_succeed :
    pyGet (topFormatIssueForStorage kan5Issue [] true) "json_content" =
      some (.dict (storageMetadata kan5Issue [])) ∧
    (importJiraProject "KAN" "Kanban" [okItem] true).processedCount = 1 ∧
    (importJiraProject "KAN" "Kanban" [okItem] true).failedCount = 0 ∧
    (importJiraProject "KAN" "Kanban" [okItem] true).documentIds = [42] := by
  refine ⟨rfl, rfl, rfl, rfl⟩

/-- C9 amended: the duplicate `content` binding (and the missing
`json_content`) is real, but only in `services/jira_service.py`'s
`format_issue_for_storage`, which no endpoint calls; the
`/jira/project/import` loop uses the top-level `jira_service.py` module,
whose `format_issue_for_storage` binds `content` once to the rendered text
and returns the metadata dict under `json_content`, so an iteration whose
formatting, upload and DB commit succeed is processed (counted in
`processed_count`, not `failed_count`). -/
theorem format_issue_for_storage_module_split
    (issue : JiraIssue) (fetched : List JiraSubtask) (incl : Bool)
    (it : ProjectItem) :
    pyGet (formatIssueForStorage issue fetched incl) "json_content" = none ∧
    pyGet (formatIssueForStorage issue fetched incl) "content" =
      some (.dict (storageMetadata issue (if incl then fetched else []))) ∧
    pyGet (topFormatIssueForStorage issue fetched incl) "json_content" =
      some (.dict (storageMetadata issue (if incl then fetched else []))) ∧
    pyGet (topFormatIssueForStorage issue fetched incl) "content" =
      some (.str (String.intercalate "\n"
        (storageContentLines issue (if incl then fetched else [])))) ∧
    (it.formatRaises = false → it.s3Ok = true → it.dbOk = true →
      processProjectItem incl it = some it.docId) := by
  refine ⟨fis_pyGet_json_content issue fetched incl,
          fis_pyGet_content issue fetched incl,
          tfs_pyGet_json_content issue fetched incl,
          tfs_pyGet_content issue fetched incl, ?_⟩
  intro hf hs hd
  unfold processProjectItem
  simp only [hf, Bool.false_eq_true, if_false]
  rw [tfs_pyGet_content it.issue it.fetchedSubtasks incl,
      tfs_pyGet_json_content it.issue it.fetchedSubtasks incl]
  simp [uploadFileContent, hs, hd]

/-- C9 witness: the amended theorem's success case applied at the
all-oracles-succeed item. -/
theorem format_issue_for_storage_module_split_witness :
    processProjectItem true okItem = some 42 :=
  (format_issue_for_storage_module_split kan5Issue [] true okItem).2.2.2.2
    rfl rfl rfl

/-- C7: the scenario — `https://co.atlassian.net/browse/KAN-5` classifies
as kind jira / url_type issue / identifier `KAN-5`, and with fetched
summary `Fix login bug` the normalized document has title
`KAN-5: Fix login bug` and filename `jira-KAN-5-Fix-login-bug.txt`. -/
theorem kan5_scenario :
    parseUrl "https://co.atlassian.net/browse/KAN-5" =
      { sourceType := .jira,
        url := "https://co.atlassian.net/browse/KAN-5",
        domain := some "co.atlassian.net",
        identifier := some (.key "KAN-5"),
        isValid := true, urlType := some "issue" } ∧
    (formatIssueContent "https://co.atlassian.net" kan5Issue []).title =
      "KAN-5: Fix login bug" ∧
    (formatIssueContent "https://co.atlassian.net" kan5Issue []).filename =
      "jira-KAN-5-Fix-login-bug.txt" := by
  refine ⟨by decide, rfl, rfl⟩

/-- C3 counterexample: `https://x.com/wiki/a/b` matches the Confluence
pattern `https?://[^/]+/wiki/[^/]+/[^/]+`, so `parse_url` classifies it as
Confluence with `is_valid = true`, yet neither extraction pattern applies
and `identifier` is null — refuting both `kind = Unknown ⇔ identifier =
null` (⇐ direction) and "every Confluence-pattern URL gets a non-null
numeric page-ID". -/
theorem confluence_url_with_null_identifier :
    (parseUrl "https://x.com/wiki/a/b").sourceType = .confluence ∧
    (parseUrl "https://x.com/wiki/a/b").isValid = true ∧
    (parseUrl "https://x.com/wiki/a/b").identifier = none := by
  refine ⟨rfl, rfl, rfl⟩

/-- C3 amended: only the forward direction of the invariant holds — when
classification yields `kind = Unknown`, the identifier is null (the
converse fails, see the counterexample). -/
theorem unknown_kind_has_null_identifier (url : String)
    (h : (parseUrl url).sourceType = .unknown) :
    (parseUrl url).identifier = none := by
  cases hd : detectSourceType url with
  | unknown => simp [parseUrl, hd]
  | confluence => simp [parseUrl, hd] at h
  | jira =>
    cases hb : extractJiraBoardInfo url <;> simp [parseUrl, hd, hb] at h

/-- C3 witness: the amended theorem applied to a concrete unmatched URL. -/
theorem unknown_kind_witness :
    (parseUrl "https://example.com/page").sourceType = .unknown ∧
    (parseUrl "https://example.com/page").identifier = none :=
  ⟨rfl, unknown_kind_has_null_identifier "https://example.com/page" rfl⟩

/-- C5 counterexample: a JIRA single-issue import through the `/import` URL
path persists `services/jira_service.py`'s `format_issue_content`
`json_content`, carrying only `page_id`, `title`, `content`, `url` and
`source` — it has no `status` (nor `subtasks`) entry even though the
fetched issue had a status, so the claimed metadata does not hold for every
single-issue import. -/
theorem single_import_metadata_lacks_status :
    kan5Issue.status = some "In Progress" ∧
    (formatIssueContent "https://co.atlassian.net" kan5Issue []).jsonContent.map
      Prod.fst = ["page_id", "title", "content", "url", "source"] ∧
    pyGet (formatIssueContent "https://co.atlassian.net" kan5Issue []).jsonContent
      "status" = none ∧
    pyGet (formatIssueContent "https://co.atlassian.net" kan5Issue []).jsonContent
      "subtasks" = none := by
  refine ⟨rfl, rfl, rfl, rfl⟩

/-- C5 amended: single-issue imports through `/jira/pull` persist the
top-level `jira_service.py` `format_issue_content`'s `json_content`, which
does include the issue key, summary, description, type, status, priority,
assignee, reporter, project name and key, created/updated timestamps, and a
`{key, summary, status}` subtasks array that is `[]` (never null) when no
subtasks were fetched; only the `/import` URL path persists
`services/jira_service.py`'s simplified
`{page_id, title, content, url, source}` mapping instead. -/
theorem pull_metadata_complete (b : String) (issue : JiraIssue)
    (subs : List JiraSubtask) :
    (topFormatIssueContent issue subs).jsonContent =
      topJsonContent issue subs ∧
    (∀ k, k ∈ ["issue_key", "summary", "description", "issue_type",
               "status", "priority", "assignee", "reporter", "project_name",
               "project_key", "created", "updated", "subtasks"] →
       (pyGet (topJsonContent issue subs) k).isSome = true) ∧
    (subs = [] → pyGet (topJsonContent issue subs) "subtasks" =
       some (.list [])) ∧
    (formatIssueContent b issue subs).jsonContent.map Prod.fst =
      ["page_id", "title", "content", "url", "source"] := by
  refine ⟨rfl, ?_, ?_, rfl⟩
  · intro k hk
    fin_cases hk <;> rfl
  · intro h
    subst h
    rfl

/-- C5 witness: the amended theorem applied at the scenario issue with no
fetched subtasks. -/
theorem pull_metadata_complete_witness :
    (pyGet (topJsonContent kan5Issue []) "status").isSome = true ∧
    pyGet (topJsonContent kan5Issue []) "subtasks" = some (.list []) :=
  ⟨(pull_metadata_complete "b" kan5Issue []).2.1 "status" (by simp),
   (pull_metadata_complete "b" kan5Issue []).2.2.1 rfl⟩

/-- Placeholder outcome for the file/content branches of `/import` that the
probed requests never reach. -/
def unusedBranch : Except PyErr ImportResponse × List StoreEvent :=
  (.error (.exn "unused"), [])

/-- C1: an unmatched URL is classified `unknown`/invalid and
`_handle_url_import` raises `HTTPException(400, "Invalid or unsupported
URL")` — but the `except Exception` block of `import_document` catches the
`HTTPException` (it *is* an `Exception`) and re-raises it as a 500, so the
`/import` endpoint surfaces a 500-class server error, not the 400-class
user-input error the specification requires. -/
theorem import_unknown_url_surfaces_500 :
    detectSourceType "https://example.com/page" = .unknown ∧
    (parseUrl "https://example.com/page").isValid = false ∧
    (handleUrlImport probeServices "https://example.com/page" true).1 =
      .error (.http 400 "Invalid or unsupported URL") ∧
    (importDocument probeServices "url" (some "https://example.com/page")
        true false false unusedBranch unusedBranch true).1 =
      .error (.http 500
        "Failed to import document: 400: Invalid or unsupported URL") := by
  refine ⟨rfl, rfl, rfl, rfl⟩

/-- C10: a RapidBoard URL is classified kind jira / url_type board with an
identifier dict holding only `rapid_view_id` (no `project_key`), so
`_handle_url_import` rejects it with `HTTPException(400, "Could not extract
project key from board URL")` instead of performing a board import; the
`/import` wrapper's `except Exception` then surfaces that rejection as a
500, not as the 400 the claim states. -/
theorem rapidboard_url_rejected :
    parseUrl "https://co.atlassian.net/secure/RapidBoard.jspa?rapidView=5" =
      { sourceType := .jira,
        url := "https://co.atlassian.net/secure/RapidBoard.jspa?rapidView=5",
        domain := some "co.atlassian.net",
        identifier := some (.info [("rapid_view_id", "5")]),
        isValid := true, urlType := some "board" } ∧
    [("rapid_view_id", "5")].lookup "project_key" = (none : Option String) ∧
    (handleUrlImport probeServices
        "https://co.atlassian.net/secure/RapidBoard.jspa?rapidView=5" true).1 =
      .error (.http 400 "Could not extract project key from board URL") ∧
    (importDocument probeServices "url"
        (some "https://co.atlassian.net/secure/RapidBoard.jspa?rapidView=5")
        true false false unusedBranch unusedBranch true).1 =
      .error (.http 500
        "Failed to import document: 400: Could not extract project key from board URL") := by
  refine ⟨by decide, rfl, rfl, rfl⟩

/-- C4 amended: every `/import` URL path persists through
`DocumentService.create_document`, whose trace inserts the DB row first and
only then writes the blob, under the key `{documentId}_{filename}`; so any
URL import either persists nothing or produces exactly that row-then-blob
trace. -/
theorem url_import_blob_after_row (svc : UrlImportServices) (url : String)
    (incl : Bool) :
    (handleUrlImport svc url incl).2 = [] ∨
    ∃ fn, (handleUrlImport svc url incl).2 =
      [.dbInsert svc.nextId fn,
       .blobWrite (toString svc.nextId ++ "_" ++ fn)] := by
  unfold handleUrlImport
  dsimp only
  repeat' split
  all_goals first
    | exact Or.inl rfl
    | exact Or.inr ⟨_, rfl⟩

/-- C4 counterexample: the concrete arguments of a successful
`/jira/pull` import. -/
def pullProbe : Except PyErr PullResponse × List StoreEvent :=
  pullJiraIssue "https://co.atlassian.net" (fun _ => .ok kan5Issue)
    (fun _ => []) true true true 7
    "https://co.atlassian.net/browse/KAN-5" false "documents"

/-- C4 counterexample: `pull_jira_issue` is an import path that persists a
document, succeeds, and yet writes the blob *before* the DB row exists,
under the bare `{filename}` key, which does not embed the assigned row id
7 — refuting "the blob write happens only after the DB row exists ... for
every import path that persists a document". -/
theorem pull_jira_issue_blob_before_row :
    (pullProbe.1.toOption.isSome = true) ∧
    pullProbe.2 = [.blobWrite "jira-KAN-5-Fix-login-bug.txt",
                   .dbInsert 7 "jira-KAN-5-Fix-login-bug.txt"] ∧
    "jira-KAN-5-Fix-login-bug.txt" ≠
      "7_" ++ "jira-KAN-5-Fix-login-bug.txt" := by
  refine ⟨rfl, rfl, by decide⟩

/-! ## C6: case sensitivity of JIRA key handling -/

/-- A successful `X+` match captures a non-empty run of class characters. -/
theorem many1C_sound {f : Char → Bool} {s g r : List Char}
    (h : many1C f s = some (g, r)) : g ≠ [] ∧ ∀ c ∈ g, f c := by
  cases s with
  | nil => simp [many1C] at h
  | cons c cs =>
    simp only [many1C] at h
    by_cases hf : f c
    · rw [if_pos hf] at h
      obtain ⟨hg, _⟩ := Prod.mk.injEq .. ▸ Option.some.inj h
      subst hg
      refine ⟨List.cons_ne_nil c _, ?_⟩
      intro x hx
      rcases List.mem_cons.mp hx with hx | hx
      · exact hx ▸ hf
      · exact List.mem_takeWhile_imp hx
    · rw [if_neg hf] at h
      exact absurd h (by simp)

/-- A successful `re.search` means the matcher succeeded at some suffix. -/
theorem searchCap_sound {m : List Char → Option (List Char)}
    {s g : List Char} (h : searchCap m s = some g) : ∃ t, m t = some g := by
  induction s with
  | nil => exact ⟨[], h⟩
  | cons c cs ih =>
    simp only [searchCap] at h
    cases hm : m (c :: cs) with
    | some g2 =>
      rw [hm] at h
      exact ⟨c :: cs, by rw [hm]; exact h⟩
    | none =>
      rw [hm] at h
      exact ih h

/-- Whatever `/browse/([A-Z]+-\d+)` captures has the shape
`uppercase letters, '-', digits`. -/
theorem capBrowseKey_sound {s g : List Char} (h : capBrowseKey s = some g) :
    ∃ a d, g = a ++ '-' :: d ∧ a ≠ [] ∧ (∀ c ∈ a, isUpperC c) ∧
      d ≠ [] ∧ (∀ c ∈ d, isDigitC c) := by
  unfold capBrowseKey at h
  cases hl : litM "/browse/".data s with
  | none => rw [hl] at h; exact Option.noConfusion h
  | some r =>
    rw [hl] at h
    dsimp only [Option.bind] at h
    cases hm : many1C isUpperC r with
    | none => rw [hm] at h; exact absurd h (by simp)
    | some ar =>
      rw [hm] at h
      dsimp only at h
      split at h
      · rename_i r3 heq
        cases hd : many1C isDigitC r3 with
        | none => rw [hd] at h; exact absurd h (by simp)
        | some dr =>
          rw [hd] at h
          obtain ⟨ha1, ha2⟩ := many1C_sound hm
          obtain ⟨hd1, hd2⟩ := many1C_sound hd
          exact ⟨ar.1, dr.1, (Option.some.inj h).symm, ha1, ha2, hd1, hd2⟩
      · exact absurd h (by simp)

/-- Same shape result for `/issues/([A-Z]+-\d+)`. -/
theorem capIssuesKey_sound {s g : List Char} (h : capIssuesKey s = some g) :
    ∃ a d, g = a ++ '-' :: d ∧ a ≠ [] ∧ (∀ c ∈ a, isUpperC c) ∧
      d ≠ [] ∧ (∀ c ∈ d, isDigitC c) := by
  unfold capIssuesKey at h
  cases hl : litM "/issues/".data s with
  | none => rw [hl] at h; exact Option.noConfusion h
  | some r =>
    rw [hl] at h
    dsimp only [Option.bind] at h
    cases hm : many1C isUpperC r with
    | none => rw [hm] at h; exact absurd h (by simp)
    | some ar =>
      rw [hm] at h
      dsimp only at h
      split at h
      · rename_i r3 heq
        cases hd : many1C isDigitC r3 with
        | none => rw [hd] at h; exact absurd h (by simp)
        | some dr =>
          rw [hd] at h
          obtain ⟨ha1, ha2⟩ := many1C_sound hm
          obtain ⟨hd1, hd2⟩ := many1C_sound hd
          exact ⟨ar.1, dr.1, (Option.some.inj h).symm, ha1, ha2, hd1, hd2⟩
      · exact absurd h (by simp)

/-- C6 amended: issue-*key extraction* is case-sensitive — every key
`extract_jira_issue_key` returns matches `[A-Z]+-\d+` exactly (upper-case
letters, a hyphen, digits), so `/browse/abc-123` yields no identifier; but
*detection* runs the patterns under `re.IGNORECASE`, so that URL is still
classified kind jira / url_type issue (with a null identifier), contrary to
the claim that the classifier does not match it as a JIRA issue. -/
theorem jira_key_extraction_case_sensitive :
    (∀ url k, extractJiraIssueKey url = some k →
       ∃ a d, k.data = a ++ '-' :: d ∧ a ≠ [] ∧ (∀ c ∈ a, isUpperC c) ∧
         d ≠ [] ∧ (∀ c ∈ d, isDigitC c)) ∧
    detectSourceType "https://co.atlassian.net/browse/abc-123" = .jira ∧
    (parseUrl "https://co.atlassian.net/browse/abc-123").urlType =
      some "issue" ∧
    (parseUrl "https://co.atlassian.net/browse/abc-123").identifier = none := by
  refine ⟨?_, rfl, rfl, rfl⟩
  intro url k h
  unfold extractJiraIssueKey at h
  split at h
  · exact absurd h (by simp)
  · split at h
    · rename_i g hg
      obtain ⟨t, ht⟩ := searchCap_sound hg
      obtain ⟨a, d, hshape, hrest⟩ := capBrowseKey_sound ht
      exact ⟨a, d, by rw [← Option.some.inj h]; exact hshape, hrest⟩
    · split at h
      · rename_i g hg
        obtain ⟨t, ht⟩ := searchCap_sound hg
        obtain ⟨a, d, hshape, hrest⟩ := capIssuesKey_sound ht
        exact ⟨a, d, by rw [← Option.some.inj h]; exact hshape, hrest⟩
      · exact absurd h (by simp)

/-- C6 witness: the amended theorem applied to a concrete upper-case
browse URL. -/
theorem jira_key_extraction_witness :
    extractJiraIssueKey "https://x.com/browse/AB-12" = some "AB-12" ∧
    ∃ a d, ("AB-12" : String).data = a ++ '-' :: d ∧ a ≠ [] ∧
      (∀ c ∈ a, isUpperC c) ∧ d ≠ [] ∧ (∀ c ∈ d, isDigitC c) :=
  ⟨rfl, jira_key_extraction_case_sensitive.1
    "https://x.com/browse/AB-12" "AB-12" rfl⟩

/-- C6 counterexample: the lowercase-key URL `/browse/abc-123` *is* matched
as a JIRA issue by the classifier, because `detect_source_type` applies the
patterns with `re.IGNORECASE` — refuting "the classifier does not match it
as a JIRA issue". -/
theorem lowercase_browse_url_detected_as_jira :
    detectSourceType "https://co.atlassian.net/browse/abc-123" = .jira ∧
    (parseUrl "https://co.atlassian.net/browse/abc-123").sourceType = .jira ∧
    (parseUrl "https://co.atlassian.net/browse/abc-123").isValid = true := by
  refine ⟨rfl, rfl, rfl⟩

/-! ## C8: content-extractor round trip -/

/-- Decoding one ASCII byte. -/
theorem utf8DecodeF_cons_ascii (fuel c : Nat) (h : c < 0x80) (bs : List Nat) :
    utf8DecodeF (fuel + 1) (c :: bs) = (utf8DecodeF fuel bs).map (c :: ·) := by
  conv_lhs => unfold utf8DecodeF
  rw [if_pos h]

/-- Decoding an encoded two-byte scalar. -/
theorem utf8DecodeF_cons_two (fuel c : Nat) (h1 : 0x80 ≤ c) (h2 : c < 0x800)
    (bs : List Nat) :
    utf8DecodeF (fuel + 1) ((0xC0 + c / 64) :: (0x80 + c % 64) :: bs) =
      (utf8DecodeF fuel bs).map (c :: ·) := by
  conv_lhs => unfold utf8DecodeF
  rw [if_neg (by omega),
      if_pos (by omega : 0xC2 ≤ 0xC0 + c / 64 ∧ 0xC0 + c / 64 ≤ 0xDF)]
  dsimp only
  rw [if_pos (show IsCont (0x80 + c % 64) by unfold IsCont; omega)]
  have he : (0xC0 + c / 64 - 0xC0) * 64 + (0x80 + c % 64 - 0x80) = c := by
    omega
  rw [he]

/-- Decoding an encoded three-byte scalar. -/
theorem utf8DecodeF_cons_three (fuel c : Nat) (h1 : 0x800 ≤ c)
    (h2 : c < 0x10000) (hs : ¬(0xD800 ≤ c ∧ c ≤ 0xDFFF)) (bs : List Nat) :
    utf8DecodeF (fuel + 1)
        ((0xE0 + c / 4096) :: (0x80 + c / 64 % 64) :: (0x80 + c % 64) :: bs) =
      (utf8DecodeF fuel bs).map (c :: ·) := by
  conv_lhs => unfold utf8DecodeF
  rw [if_neg (by omega), if_neg (by omega),
      if_pos (by omega : 0xE0 ≤ 0xE0 + c / 4096 ∧ 0xE0 + c / 4096 ≤ 0xEF)]
  dsimp only
  have he : (0xE0 + c / 4096 - 0xE0) * 4096 +
      (0x80 + c / 64 % 64 - 0x80) * 64 + (0x80 + c % 64 - 0x80) = c := by
    omega
  rw [if_pos]
  · rw [he]
  · refine ⟨by unfold IsCont; omega, by unfold IsCont; omega, ?_, ?_⟩
    · rw [he]; exact h1
    · rw [he]; exact hs

/-- Decoding an encoded four-byte scalar. -/
theorem utf8DecodeF_cons_four (fuel c : Nat) (h1 : 0x10000 ≤ c)
    (h2 : c ≤ 0x10FFFF) (bs : List Nat) :
    utf8DecodeF (fuel + 1)
        ((0xF0 + c / 262144) :: (0x80 + c / 4096 % 64) ::
         (0x80 + c / 64 % 64) :: (0x80 + c % 64) :: bs) =
      (utf8DecodeF fuel bs).map (c :: ·) := by
  conv_lhs => unfold utf8DecodeF
  rw [if_neg (by omega), if_neg (by omega), if_neg (by omega),
      if_pos (by omega : 0xF0 ≤ 0xF0 + c / 262144 ∧ 0xF0 + c / 262144 ≤ 0xF4)]
  dsimp only
  have he : (0xF0 + c / 262144 - 0xF0) * 262144 +
      (0x80 + c / 4096 % 64 - 0x80) * 4096 +
      (0x80 + c / 64 % 64 - 0x80) * 64 + (0x80 + c % 64 - 0x80) = c := by
    omega
  rw [if_pos]
  · rw [he]
  · refine ⟨by unfold IsCont; omega, by unfold IsCont; omega,
            by unfold IsCont; omega, ?_, ?_⟩
    · rw [he]; exact h1
    · rw [he]; exact h2

/-- Decoding the encoding of one valid scalar prepended to any byte
suffix. -/
theorem utf8DecodeF_encodeChar (fuel c : Nat) (h : ValidScalar c)
    (bs : List Nat) :
    utf8DecodeF (fuel + 1) (utf8EncodeChar c ++ bs) =
      (utf8DecodeF fuel bs).map (c :: ·) := by
  unfold utf8EncodeChar
  by_cases hc1 : c < 0x80
  · rw [if_pos hc1]
    exact utf8DecodeF_cons_ascii fuel c hc1 bs
  · rw [if_neg hc1]
    by_cases hc2 : c < 0x800
    · rw [if_pos hc2]
      exact utf8DecodeF_cons_two fuel c (by omega) hc2 bs
    · rw [if_neg hc2]
      by_cases hc3 : c < 0x10000
      · rw [if_pos hc3]
        exact utf8DecodeF_cons_three fuel c (by omega) hc3 h.2 bs
      · rw [if_neg hc3]
        exact utf8DecodeF_cons_four fuel c (by omega)
          (by have := h.1; omega) bs

/-- Decoding an empty byte string, with any fuel. -/
theorem utf8DecodeF_nil (fuel : Nat) : utf8DecodeF fuel [] = some [] := by
  cases fuel <;> rfl

/-- Fuel-generic UTF-8 round trip. -/
theorem utf8DecodeF_utf8Encode (cs : List Nat) :
    ∀ fuel : Nat, cs.length ≤ fuel → (∀ c ∈ cs, ValidScalar c) →
    utf8DecodeF fuel (utf8Encode cs) = some cs := by
  induction cs with
  | nil =>
    intro fuel _ _
    rw [utf8Encode]
    exact utf8DecodeF_nil fuel
  | cons c rest ih =>
    intro fuel hf hv
    cases fuel with
    | zero => exact absurd hf (by simp)
    | succ f =>
      rw [utf8Encode,
          utf8DecodeF_encodeChar f c (hv c (by simp)) (utf8Encode rest),
          ih f (by simp only [List.length_cons] at hf; omega)
            (fun x hx => hv x (by simp [hx]))]
      rfl

/-- Every scalar encodes to at least one byte. -/
theorem utf8EncodeChar_ne_nil (c : Nat) : utf8EncodeChar c ≠ [] := by
  unfold utf8EncodeChar
  repeat' split
  all_goals simp

/-- Encoding never shortens: at least one byte per character. -/
theorem length_le_utf8Encode (cs : List Nat) :
    cs.length ≤ (utf8Encode cs).length := by
  induction cs with
  | nil => simp [utf8Encode]
  | cons c rest ih =>
    rw [utf8Encode]
    have h1 : 1 ≤ (utf8EncodeChar c).length := by
      cases he : utf8EncodeChar c with
      | nil => exact absurd he (utf8EncodeChar_ne_nil c)
      | cons _ _ => simp
    simp only [List.length_append, List.length_cons]
    omega

/-- UTF-8 round trip: strict decoding inverts encoding on every string of
valid scalar values. -/
theorem utf8Decode_utf8Encode (cs : List Nat)
    (h : ∀ c ∈ cs, ValidScalar c) : utf8Decode (utf8Encode cs) = some cs :=
  utf8DecodeF_utf8Encode cs (utf8Encode cs).length (length_le_utf8Encode cs) h

/-- Latin-1 decoding is total on bytes. -/
theorem latin1Decode_total (bs : List Nat) (hb : ∀ b ∈ bs, b < 256) :
    latin1Decode bs = some bs := by
  unfold latin1Decode
  rw [if_pos]
  rw [List.all_eq_true]
  intro x hx
  exact decide_eq_true (hb x hx)

/-- C8: for input bytes that are a valid UTF-8 encoding of a string and a
declared text-family media type, extraction returns exactly the original
string; and for any byte sequence on which UTF-8, latin-1 and cp1252
decoding all fail, extraction returns the base64 marker string whose
payload decodes back to the original bytes.  (The second part is vacuous
on the real code: latin-1 decoding is total on bytes, so its failure
hypothesis is unsatisfiable — the fallback cannot be reached from the
text-decode chain.) -/
theorem content_extractor_round_trip :
    (∀ (cs : List Nat) (ct : String) (de : List Nat → String → List Nat),
       (∀ c ∈ cs, ValidScalar c) → isTextFile ct = true →
       readFileContent (utf8Encode cs) ct de = cs) ∧
    (∀ bs : List Nat, (∀ b ∈ bs, b < 256) →
       utf8Decode bs = none → latin1Decode bs = none →
       cp1252Decode bs = none →
       readTextContent bs =
         strCodes "Binary file content (base64): " ++ base64Encode bs ∧
       base64Decode (base64Encode bs) = some bs) := by
  constructor
  · intro cs ct de hv ht
    unfold readFileContent
    rw [if_pos ht]
    unfold readTextContent
    rw [utf8Decode_utf8Encode cs hv]
  · intro bs hb _ h2 _
    exfalso
    have h := latin1Decode_total bs hb
    rw [h2] at h
    exact Option.noConfusion h

/-- C8 witness: the round-trip theorem applied to the UTF-8 encoding of
`"Hi"` declared as `text/plain`. -/
theorem content_extractor_round_trip_witness :
    (∀ c ∈ [72, 105], ValidScalar c) ∧ isTextFile "text/plain" = true ∧
    readFileContent (utf8Encode [72, 105]) "text/plain" (fun _ _ => []) =
      [72, 105] :=
  ⟨by decide, rfl,
   content_extractor_round_trip.1 [72, 105] "text/plain" (fun _ _ => [])
     (by decide) rfl⟩

end Standin
